import Mathlib

/-!
Verification of the Biotuner cart modules.

Shallow embedding of the Python modules under `mongoose/carts/`:
`cart_signal_generator.py`, `cart_location_tracker.py`,
`cart_robotic_builder.py` and `cart_runner.py`.  Python floats are
modelled as real numbers where transcendental functions occur
(`math.log10`, `math.pow`) and as rational numbers elsewhere; Python's
runtime-dependent sources (`random.randint`, the salted builtin `hash`)
are modelled as an explicit ambient-state parameter.
-/

namespace Biotuner

/-- Embeds `generate_frequency_from_value` (cart_signal_generator.py, lines 13-31):
if `value <= 0` return 40.0, else `40 * 10 ** (log10(max(value, 1)) / 10)`
clamped by `min(max(frequency, 40), 40000)`. -/
noncomputable def generate_frequency_from_value (value : ℝ) : ℝ :=
  if value ≤ 0 then 40
  else
    let log_value := Real.logb 10 (max value 1)
    let frequency := 40 * (10 : ℝ) ^ (log_value / 10)
    min (max frequency 40) 40000

/-- Value of one hexadecimal digit, as accepted by Python's `int(s, 16)`. -/
def hexDigitVal (c : Char) : Option ℕ :=
  if '0' ≤ c ∧ c ≤ '9' then some (c.toNat - 48)
  else if 'a' ≤ c ∧ c ≤ 'f' then some (c.toNat - 87)
  else if 'A' ≤ c ∧ c ≤ 'F' then some (c.toNat - 55)
  else none

/-- Embeds `int(token_hash[:16], 16)` (cart_signal_generator.py line 47): parses
the first 16 characters of the string as a hexadecimal number; `none` models the
`ValueError` raised on an empty or non-hex string. -/
def parseHex16 (s : String) : Option ℕ :=
  let cs := s.toList.take 16
  if cs.isEmpty then none
  else cs.foldl (fun acc c => acc.bind fun n => (hexDigitVal c).map fun d => 16 * n + d)
    (some 0)

/-- Runtime-dependent state the Python fallbacks draw from:
`randDraw` models one `random.randint(0, 2**64-1)` outcome and `strHash` models
the per-process salted builtin `hash` (wrapped in `abs`). -/
structure Ambient where
  randDraw : ℕ
  strHash : String → ℕ

/-- Embeds the hash-to-integer derivation of `generate_quantum_tuned_signal`
(cart_signal_generator.py lines 45-50): empty hash falls back to a random draw,
a non-hex prefix falls back to `abs(hash(token_hash))`, otherwise the first 16
hex characters are parsed. -/
def derive_hash_int (token_hash : String) (amb : Ambient) : ℕ :=
  if token_hash = "" then amb.randDraw
  else
    match parseHex16 token_hash with
    | some n => n
    | none => amb.strHash token_hash

/-- One harmonic of a generated signal. -/
structure Harmonic where
  frequency : ℝ
  amplitude : ℝ
  phase : ℕ

/-- Quantum-tuning parameters of a generated signal. -/
structure QuantumParams where
  coherence : ℝ
  entanglement_factor : ℝ
  resonance_mode : ℕ

/-- A generated signal (dynamic fields `timestamp`, `waveform`, `duration`
carry no claim content and are omitted). -/
structure Signal where
  token_hash : String
  token_value : ℝ
  base_frequency : ℝ
  harmonics : List Harmonic
  quantum_tuning : QuantumParams

/-- Embeds `generate_quantum_tuned_signal` (cart_signal_generator.py lines
34-84).  The loop `for i in range(1, 6)` is embedded as a map over
`List.range 5` with `i = k + 1`. -/
noncomputable def generate_quantum_tuned_signal (token_hash : String) (value : ℝ)
    (amb : Ambient) : Signal :=
  let hash_int := derive_hash_int token_hash amb
  let base_freq := generate_frequency_from_value value
  { token_hash := token_hash
    token_value := value
    base_frequency := base_freq
    harmonics := (List.range 5).map fun (k : ℕ) =>
      { frequency := base_freq * ((k : ℝ) + 1)
        amplitude := 1 / ((k : ℝ) + 1)
        phase := (hash_int >>> ((k + 1) * 8)) &&& 0xFF }
    quantum_tuning :=
      { coherence := ((hash_int &&& 0xFFFF : ℕ) : ℝ) / 0xFFFF
        entanglement_factor := (((hash_int >>> 16) &&& 0xFFFF : ℕ) : ℝ) / 0xFFFF
        resonance_mode := (hash_int >>> 32) &&& 0xFF } }

/-- Embeds `calculate_tap_value` (cart_location_tracker.py lines 70-83):
`1.0 * (1 + force * 99)`. -/
def calculate_tap_value (force : ℚ) : ℚ :=
  1 * (1 + force * 99)

/-- Embeds `calculate_slide_value` (cart_location_tracker.py lines 86-102):
`10.0 * (1 + min(distance/100, 10) + min(velocity/100, 10))`. -/
def calculate_slide_value (distance velocity : ℚ) : ℚ :=
  10 * (1 + min (distance / 100) 10 + min (velocity / 100) 10)

/-- Embeds the velocity computation of `track_slide_event`
(cart_location_tracker.py line 53): `distance / max(duration, 0.01)`. -/
def slide_velocity (distance duration : ℚ) : ℚ :=
  distance / max duration (1 / 100)

/-- Rounds a rational to the nearest integer with ties to even, as Python's
float formatting does on the exactly representable values arising here. -/
def roundHalfEven (q : ℚ) : ℤ :=
  let f := ⌊q⌋
  if q - f < 1 / 2 then f
  else if 1 / 2 < q - f then f + 1
  else if f % 2 = 0 then f else f + 1

/-- Embeds Python `f"{x:.2f}"` (two-decimal fixed-point formatting) on exact
rationals. -/
def fmt2 (q : ℚ) : String :=
  let sign := if q < 0 then "-" else ""
  let n := (roundHalfEven (|q| * 100)).toNat
  let fracStr := if n % 100 < 10 then "0" ++ toString (n % 100) else toString (n % 100)
  sign ++ toString (n / 100) ++ "." ++ fracStr

/-- An event record as consumed by `calculate_movement_token`: just the fields
the function reads (`timestamp`, `type`, `token_value`), each possibly absent
as in a Python dict accessed through `.get`. -/
structure PyEvent where
  timestamp : Option String
  type_tag : Option String
  token_value : Option ℚ
deriving DecidableEq

/-- The movement token built by `calculate_movement_token` (the dynamic
`timestamp` field is omitted; the `pattern` sub-dict is inlined as the three
count fields). -/
structure MovementToken where
  hash : ℕ
  event_count : ℕ
  taps : ℕ
  slides : ℕ
  locations : ℕ
  total_value : ℚ
  value_formatted : String
  events : List PyEvent
deriving DecidableEq

/-- Result of `calculate_movement_token`: either the `{'error': ...}` dict or a
movement token. -/
inductive MovementResult
  | err (msg : String)
  | tok (t : MovementToken)
deriving DecidableEq

/-- Embeds `calculate_movement_token` (cart_location_tracker.py lines 133-172).
The token hash `format(abs(hash(event_string)), '064x')[:64]` is modelled via
the ambient salted-hash function applied to the concatenated timestamps. -/
def calculate_movement_token (events : List PyEvent) (amb : Ambient) : MovementResult :=
  if events.isEmpty then .err "No events provided"
  else
    let total_value := (events.map (fun e => e.token_value.getD 0)).sum
    let tap_count := events.countP (fun e => e.type_tag == some "tap")
    let slide_count := events.countP (fun e => e.type_tag == some "slide")
    let location_count := events.countP (fun e => e.type_tag == some "location")
    let event_string := String.join (events.map (fun e => e.timestamp.getD ""))
    .tok
      { hash := amb.strHash event_string
        event_count := events.length
        taps := tap_count
        slides := slide_count
        locations := location_count
        total_value := total_value
        value_formatted := "$" ++ fmt2 total_value
        events := events }

/-- Embeds Python `int()` applied to a float: truncation toward zero. -/
def pyInt (q : ℚ) : ℤ :=
  if q < 0 then -⌊-q⌋ else ⌊q⌋

/-- The `config` sub-dict of a build configuration. -/
structure BuildConfig where
  optimization_level : ℕ
  memory_limit : ℚ
  thread_count : ℤ
deriving DecidableEq

/-- A build configuration as produced by `generate_build_config` (the dynamic
`timestamp` field is omitted). -/
structure Build where
  token_value : ℚ
  build_tier : String
  features : List String
  config : BuildConfig
deriving DecidableEq

/-- Embeds `generate_build_config` (cart_robotic_builder.py lines 123-169).
`themes` is the key set of the `patterns['themes']` dict (membership is all the
source reads from it here). -/
def generate_build_config (token_value : ℚ) (themes : List String) : Build :=
  let base :=
    if 1000000000000 < token_value then
      ("quantum", ["quantum_processing", "parallel_execution", "advanced_ai"])
    else if 1000000000 < token_value then
      ("advanced", ["multi_threading", "enhanced_memory", "ai_assist"])
    else if 1000000 < token_value then
      ("professional", ["optimization", "caching", "logging"])
    else
      ("basic", ["standard_processing"])
  let features := base.2 ++
    (if "nature" ∈ themes then ["nature_pattern_recognition"] else []) ++
    (if "people" ∈ themes then ["social_analysis"] else [])
  { token_value := token_value
    build_tier := base.1
    features := features
    config :=
      { optimization_level := features.length
        memory_limit := min (token_value / 1000) 1000000
        thread_count := min (pyInt (token_value / 1000000)) 64 } }

/-- Which cart modules imported successfully (cart_runner.py lines 15-25). -/
structure Mods where
  memory_search : Bool
  signal_generator : Bool
  robotic_builder : Bool
  location_tracker : Bool

/-- One entry of the orchestrator's `carts` dict: stage name, stage status, and
the `token_value` field of the stage's results dict when that dict has one. -/
structure CartEntry where
  name : String
  status : String
  token_value : Option ℚ
deriving DecidableEq

/-- What a stage call hands back to its caller: the normal results, or the
`{'error': 'Module not available'}` marker. -/
inductive StageOutcome
  | err (msg : String)
  | ok
deriving DecidableEq

/-- Embeds `CartRunner.run_memory_search` (cart_runner.py lines 44-55) at the
carts-map level: an unavailable module returns the error marker without
recording anything; otherwise a completed entry is recorded. -/
def run_memory_search (m : Mods) (carts : List CartEntry) :
    StageOutcome × List CartEntry :=
  if m.memory_search then (.ok, carts ++ [⟨"memory_search", "completed", none⟩])
  else (.err "Module not available", carts)

/-- Embeds `CartRunner.run_signal_generator` (cart_runner.py lines 57-68); the
signal results dict carries `token_value = value`. -/
def run_signal_generator (m : Mods) (token_value : ℚ) (carts : List CartEntry) :
    StageOutcome × List CartEntry :=
  if m.signal_generator then
    (.ok, carts ++ [⟨"signal_generator", "completed", some token_value⟩])
  else (.err "Module not available", carts)

/-- Embeds `CartRunner.run_robotic_builder` (cart_runner.py lines 70-89); the
build artifact carries `token_value = value`. -/
def run_robotic_builder (m : Mods) (token_value : ℚ) (carts : List CartEntry) :
    StageOutcome × List CartEntry :=
  if m.robotic_builder then
    (.ok, carts ++ [⟨"robotic_builder", "completed", some token_value⟩])
  else (.err "Module not available", carts)

/-- Embeds `CartRunner.run_location_tracker` (cart_runner.py lines 91-112); the
movement token has no `token_value` key. -/
def run_location_tracker (m : Mods) (carts : List CartEntry) :
    StageOutcome × List CartEntry :=
  if m.location_tracker then (.ok, carts ++ [⟨"location_tracker", "completed", none⟩])
  else (.err "Module not available", carts)

/-- The orchestrator's run summary. -/
structure RunSummary where
  total_carts : ℕ
  completed : ℕ
deriving DecidableEq

/-- The orchestrator's run results (dynamic timestamps omitted). -/
structure RunResults where
  run_id : String
  carts : List CartEntry
  summary : RunSummary
deriving DecidableEq

/-- Embeds `CartRunner.run_all_carts` (cart_runner.py lines 114-141): the four
stages run in order on an initially empty carts map, then the summary counts
the recorded entries and those with status "completed". -/
def run_all_carts (m : Mods) (run_id : String) (token_value : ℚ) : RunResults :=
  let c1 := (run_memory_search m []).2
  let c2 := (run_signal_generator m token_value c1).2
  let c3 := (run_robotic_builder m token_value c2).2
  let c4 := (run_location_tracker m c3).2
  { run_id := run_id
    carts := c4
    summary :=
      { total_carts := c4.length
        completed := c4.countP (fun e => e.status == "completed") } }

/-- Dict lookup `self.results['carts'][name]`, as an association-list search. -/
def lookup_cart (carts : List CartEntry) (name : String) : Option CartEntry :=
  carts.find? (fun e => e.name == name)

/-- Embeds `CartRunner.generate_commit_message` (cart_runner.py lines 178-196):
the value comes from the signal-generation stage's `token_value` (0 when that
stage or field is absent) and is formatted `f"${value/1e9:.2f}B"` when
`value > 1e9`, else `f"${value:.2f}"`. -/
def generate_commit_message (r : RunResults) : String :=
  let value := ((lookup_cart r.carts "signal_generator").bind
    (fun e => e.token_value)).getD 0
  let value_str :=
    if 1000000000 < value then "$" ++ fmt2 (value / 1000000000) ++ "B"
    else "$" ++ fmt2 value
  "🧱[CART_RUN]🧱 " ++ toString r.summary.completed ++ "/" ++
    toString r.summary.total_carts ++ " carts completed • Value: " ++ value_str ++
    " • Run: " ++ r.run_id.take 8

/-- C2: `generate_frequency_from_value` returns exactly 40 for every value ≤ 0;
its result always lies in [40, 40000]; and it is monotone non-decreasing on
values ≥ 1. -/
theorem C2_frequency_floor_bounds_monotone (v a b : ℝ) :
    (v ≤ 0 → generate_frequency_from_value v = 40) ∧
    (40 ≤ generate_frequency_from_value v ∧ generate_frequency_from_value v ≤ 40000) ∧
    (1 ≤ a → a ≤ b → generate_frequency_from_value a ≤ generate_frequency_from_value b) := by
  refine ⟨fun hv => ?_, ⟨?_, ?_⟩, fun ha hab => ?_⟩
  · simp [generate_frequency_from_value, hv]
  · unfold generate_frequency_from_value
    split
    · norm_num
    · exact le_min (le_max_right _ _) (by norm_num)
  · unfold generate_frequency_from_value
    split
    · norm_num
    · exact min_le_right _ _
  · have ha0 : ¬ a ≤ 0 := by linarith
    have hb0 : ¬ b ≤ 0 := by linarith
    unfold generate_frequency_from_value
    rw [if_neg ha0, if_neg hb0]
    have hmono : Real.logb 10 (max a 1) ≤ Real.logb 10 (max b 1) := by
      apply Real.logb_le_logb_of_le (by norm_num)
      · exact lt_of_lt_of_le one_pos (le_max_right _ _)
      · exact max_le_max hab le_rfl
    have hpow : (10 : ℝ) ^ (Real.logb 10 (max a 1) / 10) ≤
        (10 : ℝ) ^ (Real.logb 10 (max b 1) / 10) := by
      apply Real.rpow_le_rpow_of_exponent_le (by norm_num)
      linarith
    have h40 : (40 : ℝ) * (10 : ℝ) ^ (Real.logb 10 (max a 1) / 10) ≤
        40 * (10 : ℝ) ^ (Real.logb 10 (max b 1) / 10) := by linarith
    exact min_le_min (max_le_max h40 le_rfl) le_rfl

/-- Witness for C2 at concrete inputs v = 0, a = 1, b = 2. -/
theorem C2_frequency_floor_bounds_monotone_witness :
    generate_frequency_from_value 0 = 40 ∧
    generate_frequency_from_value 1 ≤ generate_frequency_from_value 2 :=
  ⟨(C2_frequency_floor_bounds_monotone 0 1 2).1 le_rfl,
   (C2_frequency_floor_bounds_monotone 0 1 2).2.2 le_rfl (by norm_num)⟩

/-- The generated signal written out with its five harmonics explicit. -/
lemma generate_quantum_tuned_signal_explicit (h : String) (v : ℝ) (amb : Ambient) :
    generate_quantum_tuned_signal h v amb =
      { token_hash := h
        token_value := v
        base_frequency := generate_frequency_from_value v
        harmonics :=
          [{ frequency := generate_frequency_from_value v * 1, amplitude := 1,
             phase := (derive_hash_int h amb >>> 8) &&& 0xFF },
           { frequency := generate_frequency_from_value v * 2, amplitude := 1 / 2,
             phase := (derive_hash_int h amb >>> 16) &&& 0xFF },
           { frequency := generate_frequency_from_value v * 3, amplitude := 1 / 3,
             phase := (derive_hash_int h amb >>> 24) &&& 0xFF },
           { frequency := generate_frequency_from_value v * 4, amplitude := 1 / 4,
             phase := (derive_hash_int h amb >>> 32) &&& 0xFF },
           { frequency := generate_frequency_from_value v * 5, amplitude := 1 / 5,
             phase := (derive_hash_int h amb >>> 40) &&& 0xFF }]
        quantum_tuning :=
          { coherence := ((derive_hash_int h amb &&& 0xFFFF : ℕ) : ℝ) / 0xFFFF
            entanglement_factor :=
              (((derive_hash_int h amb >>> 16) &&& 0xFFFF : ℕ) : ℝ) / 0xFFFF
            resonance_mode := (derive_hash_int h amb >>> 32) &&& 0xFF } } := by
  simp only [generate_quantum_tuned_signal, List.range_succ, List.range_zero,
    List.map_append, List.map_cons, List.map_nil, List.nil_append, List.cons_append]
  norm_num

/-- C4: for every hash identifier, ambient state and value the signal has
exactly 5 harmonics; harmonic `i = k + 1` has frequency `base × i`,
amplitude `1/i` and phase `(hash_int >>> (i*8)) &&& 0xFF`; amplitudes strictly
decrease; coherence and entanglement are the stated bit-field fractions and lie
in [0, 1]; resonance_mode is `(hash_int >>> 32) &&& 0xFF` and lies in
[0, 255]. -/
theorem C4_signal_harmonics_quantum (h : String) (amb : Ambient) (v : ℝ) :
    (generate_quantum_tuned_signal h v amb).harmonics.length = 5 ∧
    (∀ k : ℕ, k < 5 →
      ((generate_quantum_tuned_signal h v amb).harmonics)[k]? =
        some { frequency := (generate_quantum_tuned_signal h v amb).base_frequency *
                 ((k : ℝ) + 1)
               amplitude := 1 / ((k : ℝ) + 1)
               phase := (derive_hash_int h amb >>> (((k + 1) * 8 : ℕ))) &&& 0xFF }) ∧
    List.Chain' (fun a b => b.amplitude < a.amplitude)
      ((generate_quantum_tuned_signal h v amb).harmonics) ∧
    (generate_quantum_tuned_signal h v amb).quantum_tuning.coherence =
      ((derive_hash_int h amb &&& 0xFFFF : ℕ) : ℝ) / 0xFFFF ∧
    0 ≤ (generate_quantum_tuned_signal h v amb).quantum_tuning.coherence ∧
    (generate_quantum_tuned_signal h v amb).quantum_tuning.coherence ≤ 1 ∧
    (generate_quantum_tuned_signal h v amb).quantum_tuning.entanglement_factor =
      (((derive_hash_int h amb >>> 16) &&& 0xFFFF : ℕ) : ℝ) / 0xFFFF ∧
    0 ≤ (generate_quantum_tuned_signal h v amb).quantum_tuning.entanglement_factor ∧
    (generate_quantum_tuned_signal h v amb).quantum_tuning.entanglement_factor ≤ 1 ∧
    (generate_quantum_tuned_signal h v amb).quantum_tuning.resonance_mode =
      (derive_hash_int h amb >>> 32) &&& 0xFF ∧
    (generate_quantum_tuned_signal h v amb).quantum_tuning.resonance_mode ≤ 255 := by
  rw [generate_quantum_tuned_signal_explicit]
  refine ⟨rfl, fun k hk => ?_, ?_, rfl, ?_, ?_, rfl, ?_, ?_, rfl, ?_⟩
  · interval_cases k <;> simp <;> norm_num
  · simp only [List.chain'_cons, List.chain'_singleton, and_true]
    norm_num
  · positivity
  · rw [div_le_one (by norm_num)]
    exact_mod_cast Nat.cast_le.mpr Nat.and_le_right
  · positivity
  · rw [div_le_one (by norm_num)]
    exact_mod_cast Nat.cast_le.mpr Nat.and_le_right
  · exact Nat.and_le_right

/-- Witness for C4: harmonic index k = 0 of a concrete signal. -/
theorem C4_signal_harmonics_quantum_witness :
    ((generate_quantum_tuned_signal "ff" 0 ⟨0, fun _ => 0⟩).harmonics)[0]? =
      some { frequency := (generate_quantum_tuned_signal "ff" 0
               ⟨0, fun _ => 0⟩).base_frequency * ((0 : ℕ) + 1)
             amplitude := 1 / (((0 : ℕ) : ℝ) + 1)
             phase := (derive_hash_int "ff" ⟨0, fun _ => 0⟩ >>> ((0 + 1) * 8)) &&& 0xFF } :=
  (C4_signal_harmonics_quantum "ff" ⟨0, fun _ => 0⟩ 0).2.1 0 (by norm_num)

/-- C6 counterexample: with hash_id = "" the code draws
`random.randint(0, 2**64-1)` anew on each call, so two calls with the same
inputs can derive different 64-bit integers: ambient draws 0 and 1 give
derived integers 0 and 1. -/
theorem C6_counterexample_empty_hash_nondeterministic :
    derive_hash_int "" ⟨0, fun _ => 0⟩ = 0 ∧
    derive_hash_int "" ⟨1, fun _ => 0⟩ = 1 ∧
    derive_hash_int "" ⟨0, fun _ => 0⟩ ≠ derive_hash_int "" ⟨1, fun _ => 0⟩ := by
  refine ⟨rfl, rfl, by simp [derive_hash_int]⟩

/-- C6 amended: whenever the first 16 characters of the hash identifier parse
as hexadecimal, the derivation ignores the runtime state, so two calls with the
same inputs derive the same integer and identical signals (phases, coherence,
entanglement_factor, resonance_mode); for an empty hash the code draws fresh
randomness per call and for a non-hex hash it uses the process-salted builtin
hash, so equality across calls is not guaranteed there. -/
theorem C6_hex_derivation_deterministic (s : String) (n : ℕ) (v : ℝ)
    (amb amb' : Ambient) (hs : parseHex16 s = some n) :
    derive_hash_int s amb = derive_hash_int s amb' ∧
    generate_quantum_tuned_signal s v amb = generate_quantum_tuned_signal s v amb' := by
  have hne : s ≠ "" := by
    intro h
    rw [h] at hs
    simp [parseHex16] at hs
  have hd : ∀ a : Ambient, derive_hash_int s a = n := by
    intro a
    simp [derive_hash_int, hne, hs]
  refine ⟨by rw [hd, hd], ?_⟩
  simp only [generate_quantum_tuned_signal, hd]

/-- Witness for C6 at the concrete hex hash "ff". -/
theorem C6_hex_derivation_deterministic_witness :
    parseHex16 "ff" = some 255 ∧
    derive_hash_int "ff" ⟨0, fun _ => 0⟩ = derive_hash_int "ff" ⟨17, fun _ => 3⟩ :=
  ⟨by decide,
   (C6_hex_derivation_deterministic "ff" 255 0 ⟨0, fun _ => 0⟩ ⟨17, fun _ => 3⟩
     (by decide)).1⟩

/-- C1: `calculate_movement_token` on a non-empty event list returns a token
whose total_value is the sum of the events' token_value fields, whose
event_count is the list length and whose per-kind counts filter on the kind
tag; on the empty list it returns the error marker, not a fault. -/
theorem C1_movement_token_aggregate (E : List PyEvent) (amb : Ambient) :
    (E ≠ [] → ∃ t : MovementToken,
      calculate_movement_token E amb = .tok t ∧
      t.total_value = (E.map (fun e => e.token_value.getD 0)).sum ∧
      t.event_count = E.length ∧
      t.taps = E.countP (fun e => e.type_tag == some "tap") ∧
      t.slides = E.countP (fun e => e.type_tag == some "slide") ∧
      t.locations = E.countP (fun e => e.type_tag == some "location")) ∧
    calculate_movement_token [] amb = .err "No events provided" := by
  constructor
  · intro hE
    match E, hE with
    | e :: es, _ => exact ⟨_, rfl, rfl, rfl, rfl, rfl, rfl⟩
  · rfl

/-- Witness for C1 on a concrete two-event list. -/
theorem C1_movement_token_aggregate_witness :
    ∃ t : MovementToken,
      calculate_movement_token
        [⟨some "a", some "tap", some 80⟩, ⟨some "b", some "slide", some 20⟩]
        ⟨0, fun _ => 0⟩ = .tok t ∧
      t.total_value = 100 ∧ t.event_count = 2 ∧ t.taps = 1 ∧ t.slides = 1 ∧
      t.locations = 0 := by
  obtain ⟨t, h1, h2, h3, h4, h5, h6⟩ :=
    (C1_movement_token_aggregate
      [⟨some "a", some "tap", some 80⟩, ⟨some "b", some "slide", some 20⟩]
      ⟨0, fun _ => 0⟩).1 (by decide)
  refine ⟨t, h1, ?_, ?_, ?_, ?_, ?_⟩
  · rw [h2]; norm_num
  · rw [h3]; rfl
  · rw [h4]; rfl
  · rw [h5]; rfl
  · rw [h6]; rfl

/-- An event matches at most one of the three kind tags, so the three per-kind
counts together never exceed the list length. -/
lemma countP_kinds_le_length (E : List PyEvent) :
    E.countP (fun e => e.type_tag == some "tap") +
      E.countP (fun e => e.type_tag == some "slide") +
      E.countP (fun e => e.type_tag == some "location") ≤ E.length := by
  induction E with
  | nil => simp
  | cons a l ih =>
    simp only [List.countP_cons, List.length_cons]
    have h : (if (a.type_tag == some "tap") then (1 : ℕ) else 0) +
        (if (a.type_tag == some "slide") then (1 : ℕ) else 0) +
        (if (a.type_tag == some "location") then (1 : ℕ) else 0) ≤ 1 := by
      rcases a with ⟨ts, tt, tv⟩
      rcases tt with _ | s
      · simp
      · by_cases e1 : s = "tap"
        · subst e1; simp
        · by_cases e2 : s = "slide"
          · subst e2; simp
          · by_cases e3 : s = "location"
            · subst e3; simp
            · simp [e1, e2, e3]
    omega

/-- C10: `calculate_movement_token` is total over arbitrary event records: an
event with no token_value field contributes 0 to total_value; an event with a
missing or unrecognised kind tag still counts in event_count but in no per-kind
count, so the per-kind counts can sum to strictly less than event_count; no
missing field causes a failure. -/
theorem C10_movement_token_arbitrary_events (E : List PyEvent) (e : PyEvent)
    (amb : Ambient) :
    (e.token_value = none → E ≠ [] →
      ∃ t t' : MovementToken, calculate_movement_token (e :: E) amb = .tok t ∧
        calculate_movement_token E amb = .tok t' ∧
        t.total_value = t'.total_value ∧ t.event_count = t'.event_count + 1) ∧
    (E ≠ [] → ∃ t : MovementToken, calculate_movement_token E amb = .tok t ∧
      t.taps + t.slides + t.locations ≤ t.event_count) ∧
    (∃ t : MovementToken,
      calculate_movement_token [⟨none, none, none⟩] amb = .tok t ∧
      t.total_value = 0 ∧ t.taps + t.slides + t.locations = 0 ∧
      t.event_count = 1) := by
  refine ⟨fun h0 hE => ?_, fun hE => ?_, ?_⟩
  · match E, hE with
    | f :: es, _ =>
      refine ⟨_, _, rfl, rfl, ?_, rfl⟩
      simp [h0]
  · match E, hE with
    | f :: es, _ => exact ⟨_, rfl, countP_kinds_le_length (f :: es)⟩
  · refine ⟨_, rfl, ?_, ?_, rfl⟩
    · simp
    · simp

/-- Witness for C10 with a concrete value-less, tag-less extra event. -/
theorem C10_movement_token_arbitrary_events_witness :
    ∃ t t' : MovementToken,
      calculate_movement_token
        [⟨none, none, none⟩, ⟨some "a", some "tap", some 80⟩] ⟨0, fun _ => 0⟩ = .tok t ∧
      calculate_movement_token [⟨some "a", some "tap", some 80⟩] ⟨0, fun _ => 0⟩ = .tok t' ∧
      t.total_value = t'.total_value ∧ t.event_count = t'.event_count + 1 :=
  (C10_movement_token_arbitrary_events [⟨some "a", some "tap", some 80⟩]
    ⟨none, none, none⟩ ⟨0, fun _ => 0⟩).1 rfl (by decide)

/-- C7 counterexample: the slide-value formula caps at 210, so the claimed
upper end 1000 of the range is not the least upper bound: even the extreme
input distance = 10^6, duration = 1/100 yields exactly 210 < 1000. -/
theorem C7_counterexample_value_cap :
    calculate_slide_value 1000000 (slide_velocity 1000000 (1 / 100)) = 210 ∧
    (210 : ℚ) < 1000 := by
  constructor
  · norm_num [calculate_slide_value, slide_velocity]
  · norm_num

/-- C7 amended: velocity = distance / max(duration, 0.01) and the slide value
equals `10 * (1 + min(distance/100, 10) + min(velocity/100, 10))`; over
non-negative distances and positive durations this value ranges over
[10, 210] — 10 and 210 are both attained, so 210 (not 1000) is the least
upper bound. -/
theorem C7_slide_value_formula_range (d dur : ℚ) (hd : 0 ≤ d) (hdur : 0 < dur) :
    slide_velocity d dur = d / max dur (1 / 100) ∧
    calculate_slide_value d (slide_velocity d dur) =
      10 * (1 + min (d / 100) 10 + min (slide_velocity d dur / 100) 10) ∧
    10 ≤ calculate_slide_value d (slide_velocity d dur) ∧
    calculate_slide_value d (slide_velocity d dur) ≤ 210 ∧
    calculate_slide_value 1000 (slide_velocity 1000 1) = 210 ∧
    calculate_slide_value 0 (slide_velocity 0 dur) = 10 := by
  have hvel : 0 ≤ slide_velocity d dur := by
    apply div_nonneg hd
    exact le_of_lt (lt_of_lt_of_le (by norm_num) (le_max_right dur (1 / 100)))
  refine ⟨rfl, rfl, ?_, ?_, ?_, ?_⟩
  · unfold calculate_slide_value
    have h1 : 0 ≤ min (d / 100) 10 := le_min (by linarith) (by norm_num)
    have h2 : 0 ≤ min (slide_velocity d dur / 100) 10 := le_min (by linarith) (by norm_num)
    linarith
  · unfold calculate_slide_value
    have h1 : min (d / 100) 10 ≤ 10 := min_le_right _ _
    have h2 : min (slide_velocity d dur / 100) 10 ≤ 10 := min_le_right _ _
    linarith
  · norm_num [calculate_slide_value, slide_velocity]
  · norm_num [calculate_slide_value, slide_velocity]

/-- Witness for C7 at distance 50, duration 1. -/
theorem C7_slide_value_formula_range_witness :
    10 ≤ calculate_slide_value 50 (slide_velocity 50 1) ∧
    calculate_slide_value 50 (slide_velocity 50 1) ≤ 210 :=
  ⟨(C7_slide_value_formula_range 50 1 (by norm_num) (by norm_num)).2.2.1,
   (C7_slide_value_formula_range 50 1 (by norm_num) (by norm_num)).2.2.2.1⟩

/-- The build tier as a bare conditional on the token value. -/
lemma build_tier_eq (v : ℚ) (themes : List String) :
    (generate_build_config v themes).build_tier =
      if 1000000000000 < v then "quantum"
      else if 1000000000 < v then "advanced"
      else if 1000000 < v then "professional"
      else "basic" := by
  unfold generate_build_config
  by_cases h1 : (1000000000000 : ℚ) < v <;> by_cases h2 : (1000000000 : ℚ) < v <;>
    by_cases h3 : (1000000 : ℚ) < v <;> simp [h1, h2, h3]

/-- C3: the build tier is a step function of the token value with exclusive
lower bounds (quantum iff value > 1e12, advanced iff 1e9 < value ≤ 1e12,
professional iff 1e6 < value ≤ 1e9, basic otherwise — in particular the values
1e6 and 999999 both give basic); memory_limit = min(value/1000, 1e6),
thread_count = min(int(value/1e6), 64) and optimization_level equals the
number of features. -/
theorem C3_build_tier_thresholds_config (v : ℚ) (themes : List String) :
    ((generate_build_config v themes).build_tier = "quantum" ↔ 1000000000000 < v) ∧
    ((generate_build_config v themes).build_tier = "advanced" ↔
      (1000000000 < v ∧ v ≤ 1000000000000)) ∧
    ((generate_build_config v themes).build_tier = "professional" ↔
      (1000000 < v ∧ v ≤ 1000000000)) ∧
    ((generate_build_config v themes).build_tier = "basic" ↔ v ≤ 1000000) ∧
    (generate_build_config 1000000 themes).build_tier = "basic" ∧
    (generate_build_config 999999 themes).build_tier = "basic" ∧
    (generate_build_config v themes).config.memory_limit = min (v / 1000) 1000000 ∧
    (generate_build_config v themes).config.thread_count = min (pyInt (v / 1000000)) 64 ∧
    (generate_build_config v themes).config.optimization_level =
      (generate_build_config v themes).features.length := by
  refine ⟨?_, ?_, ?_, ?_, by rw [build_tier_eq]; norm_num, by rw [build_tier_eq]; norm_num,
    rfl, rfl, rfl⟩ <;>
  · rw [build_tier_eq]
    by_cases h1 : (1000000000000 : ℚ) < v <;> by_cases h2 : (1000000000 : ℚ) < v <;>
      by_cases h3 : (1000000 : ℚ) < v <;>
      simp [h1, h2, h3] <;> linarith

/-- Membership in the carts map after the memory-search stage. -/
lemma mem_run_memory_search (m : Mods) (c : List CartEntry) (e : CartEntry) :
    e ∈ (run_memory_search m c).2 ↔
      e ∈ c ∨ (m.memory_search = true ∧ e = ⟨"memory_search", "completed", none⟩) := by
  cases hm : m.memory_search <;> simp [run_memory_search, hm]

/-- Membership in the carts map after the signal-generator stage. -/
lemma mem_run_signal_generator (m : Mods) (v : ℚ) (c : List CartEntry) (e : CartEntry) :
    e ∈ (run_signal_generator m v c).2 ↔
      e ∈ c ∨ (m.signal_generator = true ∧
        e = ⟨"signal_generator", "completed", some v⟩) := by
  cases hm : m.signal_generator <;> simp [run_signal_generator, hm]

/-- Membership in the carts map after the robotic-builder stage. -/
lemma mem_run_robotic_builder (m : Mods) (v : ℚ) (c : List CartEntry) (e : CartEntry) :
    e ∈ (run_robotic_builder m v c).2 ↔
      e ∈ c ∨ (m.robotic_builder = true ∧
        e = ⟨"robotic_builder", "completed", some v⟩) := by
  cases hm : m.robotic_builder <;> simp [run_robotic_builder, hm]

/-- Membership in the carts map after the location-tracker stage. -/
lemma mem_run_location_tracker (m : Mods) (c : List CartEntry) (e : CartEntry) :
    e ∈ (run_location_tracker m c).2 ↔
      e ∈ c ∨ (m.location_tracker = true ∧
        e = ⟨"location_tracker", "completed", none⟩) := by
  cases hm : m.location_tracker <;> simp [run_location_tracker, hm]

/-- The carts map of a full run holds exactly the entries of the available
stages. -/
lemma mem_run_all_carts (m : Mods) (rid : String) (v : ℚ) (e : CartEntry) :
    e ∈ (run_all_carts m rid v).carts ↔
      (m.memory_search = true ∧ e = ⟨"memory_search", "completed", none⟩) ∨
      (m.signal_generator = true ∧ e = ⟨"signal_generator", "completed", some v⟩) ∨
      (m.robotic_builder = true ∧ e = ⟨"robotic_builder", "completed", some v⟩) ∨
      (m.location_tracker = true ∧ e = ⟨"location_tracker", "completed", none⟩) := by
  simp only [run_all_carts]
  rw [mem_run_location_tracker, mem_run_robotic_builder, mem_run_signal_generator,
    mem_run_memory_search]
  simp only [List.not_mem_nil, false_or]
  tauto

/-- Every entry the orchestrator records carries status "completed". -/
lemma carts_all_completed (m : Mods) (rid : String) (v : ℚ) :
    ∀ e ∈ (run_all_carts m rid v).carts, e.status = "completed" := by
  intro e he
  rcases (mem_run_all_carts m rid v e).mp he with ⟨-, rfl⟩ | ⟨-, rfl⟩ | ⟨-, rfl⟩ | ⟨-, rfl⟩ <;>
    rfl

/-- The run summary always counts every recorded entry as completed. -/
lemma completed_eq_total (m : Mods) (rid : String) (v : ℚ) :
    (run_all_carts m rid v).summary.completed =
      (run_all_carts m rid v).summary.total_carts := by
  have h := carts_all_completed m rid v
  simp only [run_all_carts] at h ⊢
  apply List.countP_eq_length.mpr
  intro a ha
  simpa using h a ha

/-- C9: in every completed `run_all_carts` run each recorded carts-map entry
has status "completed", the summary satisfies completed = total_carts, and a
stage whose module failed to import contributes no entry at all to the carts
map. -/
theorem C9_run_invariant (m : Mods) (rid : String) (v : ℚ) :
    (∀ e ∈ (run_all_carts m rid v).carts, e.status = "completed") ∧
    (run_all_carts m rid v).summary.completed =
      (run_all_carts m rid v).summary.total_carts ∧
    (m.memory_search = false →
      ∀ e ∈ (run_all_carts m rid v).carts, e.name ≠ "memory_search") ∧
    (m.signal_generator = false →
      ∀ e ∈ (run_all_carts m rid v).carts, e.name ≠ "signal_generator") ∧
    (m.robotic_builder = false →
      ∀ e ∈ (run_all_carts m rid v).carts, e.name ≠ "robotic_builder") ∧
    (m.location_tracker = false →
      ∀ e ∈ (run_all_carts m rid v).carts, e.name ≠ "location_tracker") := by
  refine ⟨carts_all_completed m rid v, completed_eq_total m rid v, ?_, ?_, ?_, ?_⟩ <;>
  · intro hm e he
    rcases (mem_run_all_carts m rid v e).mp he with ⟨ht, rfl⟩ | ⟨ht, rfl⟩ | ⟨ht, rfl⟩ |
        ⟨ht, rfl⟩ <;>
      first
      | (rw [hm] at ht; cases ht)
      | simp

/-- Witness for C9: a fully available run, and the absence of the
memory-search entry when that module is unavailable. -/
theorem C9_run_invariant_witness :
    (run_all_carts ⟨true, true, true, true⟩ "r" 5).summary.completed =
      (run_all_carts ⟨true, true, true, true⟩ "r" 5).summary.total_carts ∧
    (⟨"signal_generator", "completed", some 5⟩ : CartEntry).name ≠ "memory_search" :=
  ⟨(C9_run_invariant ⟨true, true, true, true⟩ "r" 5).2.1,
   (C9_run_invariant ⟨false, true, true, true⟩ "r" 5).2.2.1 rfl
     ⟨"signal_generator", "completed", some 5⟩
     ((mem_run_all_carts ⟨false, true, true, true⟩ "r" 5 _).mpr
       (Or.inr (Or.inl ⟨rfl, rfl⟩)))⟩

/-- C5 counterexample: with the memory-search module unavailable the run's
carts map has no memory_search entry at all (the error result is only
returned, never recorded) and total_carts is 3, not the 4 attempted stages. -/
theorem C5_counterexample_unavailable_stage_not_recorded :
    (run_all_carts ⟨false, true, true, true⟩ "r" 18160000000).summary.total_carts = 3 ∧
    (run_all_carts ⟨false, true, true, true⟩ "r" 18160000000).carts.countP
      (fun e => e.name == "memory_search") = 0 ∧
    (3 : ℕ) ≠ 4 := by
  refine ⟨rfl, rfl, by decide⟩

/-- C5 amended: when a stage's module is unavailable the stage returns
`{error: "Module not available"}` to the orchestrator and records nothing in
the carts map, and the run continues; after all stages total_carts equals the
number of stages whose module was available (not the number attempted) and
completed equals the number of recorded stages with status "completed". -/
theorem C5_stage_isolation_amended (m : Mods) (rid : String) (v : ℚ)
    (c : List CartEntry) :
    (m.memory_search = false →
      run_memory_search m c = (.err "Module not available", c)) ∧
    (m.signal_generator = false →
      run_signal_generator m v c = (.err "Module not available", c)) ∧
    (m.robotic_builder = false →
      run_robotic_builder m v c = (.err "Module not available", c)) ∧
    (m.location_tracker = false →
      run_location_tracker m c = (.err "Module not available", c)) ∧
    (run_all_carts m rid v).summary.total_carts =
      ((if m.memory_search then 1 else 0) + (if m.signal_generator then 1 else 0) +
        (if m.robotic_builder then 1 else 0) + (if m.location_tracker then 1 else 0)) ∧
    (run_all_carts m rid v).summary.completed =
      (run_all_carts m rid v).summary.total_carts := by
  refine ⟨fun h => by simp [run_memory_search, h],
    fun h => by simp [run_signal_generator, h],
    fun h => by simp [run_robotic_builder, h],
    fun h => by simp [run_location_tracker, h],
    ?_, completed_eq_total m rid v⟩
  rcases m with ⟨m1, m2, m3, m4⟩
  cases m1 <;> cases m2 <;> cases m3 <;> cases m4 <;> rfl

/-- Witness for C5 with memory search unavailable and the rest available. -/
theorem C5_stage_isolation_amended_witness :
    run_memory_search ⟨false, true, true, true⟩ [] = (.err "Module not available", []) ∧
    (run_all_carts ⟨false, true, true, true⟩ "r" 5).summary.completed =
      (run_all_carts ⟨false, true, true, true⟩ "r" 5).summary.total_carts :=
  ⟨(C5_stage_isolation_amended ⟨false, true, true, true⟩ "r" 5 []).1 rfl,
   (C5_stage_isolation_amended ⟨false, true, true, true⟩ "r" 5 []).2.2.2.2.2⟩

/-- The value the commit message reads from the carts map. -/
lemma lookup_signal_value (m : Mods) (rid : String) (v : ℚ) :
    ((lookup_cart (run_all_carts m rid v).carts "signal_generator").bind
      (fun e => e.token_value)).getD 0 = if m.signal_generator then v else 0 := by
  rcases m with ⟨m1, m2, m3, m4⟩
  cases m1 <;> cases m2 <;> cases m3 <;> cases m4 <;> rfl

/-- `f"{18.16:.2f}"` on the exact rational 18.16. -/
lemma fmt2_eighteen_sixteen : fmt2 ((18160000000 : ℚ) / 1000000000) = "18.16" := by
  have h2 : ¬ ((18160000000 : ℚ) / 1000000000 < 0) := by norm_num
  have h1 : |(18160000000 : ℚ) / 1000000000| * 100 = 1816 := by
    rw [abs_of_nonneg (by norm_num)]
    norm_num
  have h3 : roundHalfEven 1816 = 1816 := by
    unfold roundHalfEven
    rw [show (1816 : ℚ) = ((1816 : ℤ) : ℚ) by norm_num, Int.floor_intCast]
    norm_num
  unfold fmt2
  rw [h1, if_neg h2, h3]
  rfl

/-- `f"{1000000000:.2f}"` on the exact rational 10^9. -/
lemma fmt2_one_billion : fmt2 (1000000000 : ℚ) = "1000000000.00" := by
  have h2 : ¬ ((1000000000 : ℚ) < 0) := by norm_num
  have h1 : |(1000000000 : ℚ)| * 100 = 100000000000 := by
    rw [abs_of_nonneg (by norm_num)]
    norm_num
  have h3 : roundHalfEven 100000000000 = 100000000000 := by
    unfold roundHalfEven
    rw [show (100000000000 : ℚ) = ((100000000000 : ℤ) : ℚ) by norm_num, Int.floor_intCast]
    norm_num
  unfold fmt2
  rw [h1, if_neg h2, h3]
  rfl

/-- C8 counterexample: at signal-stage value exactly 1e9 the code takes the
plain-dollar branch (the comparison is strict), so the message reads
"$1000000000.00", not the "$1.00B" the claim requires at 1e9. -/
theorem C8_counterexample_boundary_plain :
    generate_commit_message (run_all_carts ⟨true, true, true, true⟩ "abcdefgh"
        1000000000) =
      "🧱[CART_RUN]🧱 4/4 carts completed • Value: $1000000000.00 • Run: abcdefgh" ∧
    "🧱[CART_RUN]🧱 4/4 carts completed • Value: $1000000000.00 • Run: abcdefgh" ≠
      "🧱[CART_RUN]🧱 4/4 carts completed • Value: $1.00B • Run: abcdefgh" := by
  constructor
  · have hv : ((lookup_cart (run_all_carts ⟨true, true, true, true⟩ "abcdefgh"
        1000000000).carts "signal_generator").bind (fun e => e.token_value)).getD 0 =
        (1000000000 : ℚ) := rfl
    simp only [generate_commit_message]
    rw [hv, if_neg (by norm_num : ¬ ((1000000000 : ℚ) < 1000000000)), fmt2_one_billion]
    rfl
  · decide

/-- C8 amended: the run message combines the completed/total stage counts with
the value taken from the signal-generation stage's token_value (0 when that
stage is absent), formatted in abbreviated billions exactly when the value is
strictly greater than 1e9 and as a plain dollar figure otherwise — so value
exactly 1e9 is formatted "$1000000000.00", not "$1.00B", while 18160000000
gives "$18.16B". -/
theorem C8_commit_message_amended (m : Mods) (rid : String) (v : ℚ) :
    generate_commit_message (run_all_carts m rid v) =
      "🧱[CART_RUN]🧱 " ++ toString (run_all_carts m rid v).summary.completed ++ "/" ++
        toString (run_all_carts m rid v).summary.total_carts ++
        " carts completed • Value: " ++
        (if 1000000000 < (if m.signal_generator then v else 0) then
          "$" ++ fmt2 ((if m.signal_generator then v else 0) / 1000000000) ++ "B"
        else "$" ++ fmt2 (if m.signal_generator then v else 0)) ++
        " • Run: " ++ rid.take 8 ∧
    ("$" ++ fmt2 ((18160000000 : ℚ) / 1000000000) ++ "B") = "$18.16B" ∧
    ("$" ++ fmt2 (1000000000 : ℚ)) = "$1000000000.00" := by
  refine ⟨?_, ?_, ?_⟩
  · simp only [generate_commit_message]
    rw [lookup_signal_value]
    rfl
  · rw [fmt2_eighteen_sixteen]
    rfl
  · rw [fmt2_one_billion]
    rfl

end Biotuner
